import Mathlib

/-!
Verification development for the predictive-maintenance engine of the
asset-management system.  The definitions below are a shallow embedding of
`assets/predictive_maintenance.py` (class `PredictiveMaintenanceService`) and
`assets/services/zabbix_service.py` (class `ZabbixService`).

Conventions of the embedding:
* Python floats become `ℚ` (all arithmetic in the source is exact decimal
  arithmetic on these code paths).
* Zabbix history samples carry an epoch timestamp (`clock`) and a value.
* Python dicts keyed by metric name become association lists in insertion
  order (`MonitoringData`), with `mdLookup` playing the role of `in` / `[]`.
* Calendar dates/datetimes become `Int` day numbers; `timedelta(days = n)`
  becomes integer addition.  Where the source mixes `datetime.date` and
  `datetime.datetime` values in one comparison (which raises `TypeError` in
  Python), the kinds are tracked with `PyDate` and the comparison returns
  `Except`, so the raised-and-caught exception path is explicit.
* The scikit-learn `IsolationForest.fit_predict` call is an opaque external
  classifier: it is passed in as a function `clf : List ℚ → List Bool`
  returning one is-anomaly flag per sample.  Every theorem below holds for
  every classifier, which is exactly the guarantee the surrounding code
  provides.
* Database / network effects (`Intervention.objects.filter`, the Zabbix API,
  `SystemNotification.objects.create`) are passed in as explicit inputs or
  threaded as explicit state.
-/

/-- One Zabbix history sample: `clock` is the epoch timestamp, `value` the
numeric reading (source: the `{'clock': ..., 'value': ...}` dicts returned by
`ZabbixService.get_history_data`). -/
structure HistPoint where
  clock : Nat
  value : ℚ
deriving DecidableEq, Repr

/-- The `monitoring_data` dict built by `_get_monitoring_data`: metric key to
list of samples, in insertion order. -/
abbrev MonitoringData := List (String × List HistPoint)

/-- Dict membership plus indexing (`metric in monitoring_data` followed by
`monitoring_data[metric]`). -/
def mdLookup (monitoring_data : MonitoringData) (key : String) : Option (List HistPoint) :=
  (monitoring_data.find? (fun p => p.1 == key)).map (fun p => p.2)

/-- Embedding of `np.mean` on a list of rationals. -/
def npMean (xs : List ℚ) : ℚ := xs.sum / (xs.length : ℚ)

/-- The `self.thresholds` dict set in `PredictiveMaintenanceService.__init__`. -/
def thresholds (key : String) : ℚ :=
  if key == "cpu_critical" then 90
  else if key == "cpu_warning" then 80
  else if key == "memory_critical" then 95
  else if key == "memory_warning" then 85
  else if key == "disk_critical" then 95
  else if key == "disk_warning" then 85
  else if key == "temperature_critical" then 80
  else if key == "temperature_warning" then 70
  else if key == "network_error_rate" then 1 / 20
  else if key == "uptime_threshold" then 30
  else 0

/-- Does `needle` occur at the head of `hay`?  (helper for the Python
substring test). -/
def strMatchAt : List Char → List Char → Bool
  | [], _ => true
  | _ :: _, [] => false
  | a :: as, b :: bs => a == b && strMatchAt as bs

/-- Does `needle` occur anywhere in `hay`? -/
def strSubAux (needle : List Char) : List Char → Bool
  | [] => needle.isEmpty
  | b :: bs => strMatchAt needle (b :: bs) || strSubAux needle bs

/-- Embedding of Python `needle in hay` on strings (substring containment). -/
def strHasSub (needle hay : String) : Bool := strSubAux needle.toList hay.toList

/-- Embedding of `_calculate_anomaly_severity`: metric-specific static
thresholds mapping a flagged value to a severity string. -/
def calculate_anomaly_severity (metric_name : String) (value : ℚ) : String :=
  if strHasSub "cpu" metric_name then
    if value > 95 then "critical"
    else if value > 85 then "high"
    else "medium"
  else if strHasSub "memory" metric_name then
    if value > 98 then "critical"
    else if value > 90 then "high"
    else "medium"
  else if strHasSub "disk" metric_name then
    if value > 98 then "critical"
    else if value > 90 then "high"
    else "medium"
  else if strHasSub "temp" metric_name then
    if value > 85 then "critical"
    else if value > 75 then "high"
    else "medium"
  else "medium"

/-- Embedding of `_describe_anomaly` (the `:.1f` numeric interpolation of the
f-strings is elided; no theorem depends on the description text). -/
def describe_anomaly (metric_name : String) (_value : ℚ) : String :=
  if strHasSub "cpu" metric_name then "Unusually high CPU utilization"
  else if strHasSub "memory" metric_name then "Unusually high memory utilization"
  else if strHasSub "disk" metric_name then "Unusually high disk utilization"
  else if strHasSub "temp" metric_name then "Unusually high temperature"
  else if strHasSub "network" metric_name then "Unusual network activity detected"
  else "Unusual value detected"

/-- One anomaly record as built inside `_detect_anomalies`. -/
structure Anomaly where
  metric : String
  timestamp : Nat
  value : ℚ
  severity : String
  description : String
deriving DecidableEq, Repr

/-- Stable insertion into a list sorted by the boolean relation `le`
(helper for the embedding of Python `list.sort`). -/
def pyInsert {α : Type} (le : α → α → Bool) (a : α) : List α → List α
  | [] => [a]
  | b :: bs => if le a b then a :: b :: bs else b :: pyInsert le a bs

/-- Stable insertion sort: the embedding of Python `list.sort` with a
comparator.  `le x y = true` means `x` may come before `y`. -/
def pySort {α : Type} (le : α → α → Bool) : List α → List α
  | [] => []
  | a :: as => pyInsert le a (pySort le as)

/-- Lexicographic comparison of character lists (helper embedding Python
string comparison). -/
def charListLt : List Char → List Char → Bool
  | [], [] => false
  | [], _ :: _ => true
  | _ :: _, [] => false
  | a :: as, b :: bs => decide (a < b) || (a == b && charListLt as bs)

/-- Embedding of Python `<` on strings: lexicographic by code point. -/
def pyStrLt (a b : String) : Bool := charListLt a.toList b.toList

/-- The comparator realised by
`anomalies.sort(key = lambda x: (x['severity'], x['timestamp']), reverse = True)`:
`x` comes before `y` iff the Python tuple `(x.severity, x.timestamp)` is
greater or equal to `(y.severity, y.timestamp)` — NOTE: the severities are
compared as strings, lexicographically. -/
def anomalyKeyGE (x y : Anomaly) : Bool :=
  pyStrLt y.severity x.severity ||
    (x.severity == y.severity && decide (y.timestamp ≤ x.timestamp))

/-- Embedding of `_detect_anomalies`: streams with fewer than 10 samples are
skipped; the classifier flags anomalous samples; flagged samples get a
severity and description; the list is sorted with the source's comparator
and truncated to 20 entries. -/
def detect_anomalies (clf : List ℚ → List Bool) (monitoring_data : MonitoringData) :
    List Anomaly :=
  let anomalies := monitoring_data.flatMap (fun md =>
    if md.2.length < 10 then []
    else
      let values := md.2.map (fun v => v.value)
      let anomaly_labels := clf values
      (md.2.zip anomaly_labels).filterMap (fun vl =>
        if vl.2 then
          some { metric := md.1, timestamp := vl.1.clock, value := vl.1.value,
                 severity := calculate_anomaly_severity md.1 vl.1.value,
                 description := describe_anomaly md.1 vl.1.value }
        else none))
  (pySort anomalyKeyGE anomalies).take 20

/-- Per-metric summary statistics as read by `_calculate_health_score` and
`_predict_failure` (the `max` / `p95` / `trend` entries of the source dict are
carried nowhere in the claimed code paths and are elided). -/
structure MetricStats where
  avg : ℚ
deriving DecidableEq, Repr

/-- The `uptime` summary as read by `_calculate_health_score`
(`current_days` / `avg_days` are never read downstream and are elided). -/
structure UptimeStats where
  restarts : Nat
deriving DecidableEq, Repr

/-- The `health_metrics` dict built by `_calculate_health_metrics`: a key is
present exactly when the corresponding metric stream was fetched. -/
structure HealthMetrics where
  cpu : Option MetricStats
  memory : Option MetricStats
  disk : Option MetricStats
  temperature : Option MetricStats
  uptime : Option UptimeStats
deriving DecidableEq, Repr

/-- The `health_metrics` map with no entries at all (an empty summaries map). -/
def empty_health_metrics : HealthMetrics :=
  { cpu := none, memory := none, disk := none, temperature := none, uptime := none }

/-- Embedding of `_calculate_health_metrics` restricted to the fields consumed
downstream: the per-stream `np.mean` averages and the uptime restart count
(`len([u for u in uptime_days if u < 1])`, with `uptime_days = value / 86400`). -/
def calculate_health_metrics (monitoring_data : MonitoringData) : HealthMetrics :=
  { cpu := (mdLookup monitoring_data "system.cpu.util").map
      (fun pts => { avg := npMean (pts.map (fun v => v.value)) }),
    memory := (mdLookup monitoring_data "vm.memory.util").map
      (fun pts => { avg := npMean (pts.map (fun v => v.value)) }),
    disk := (mdLookup monitoring_data "vfs.fs.size[/,pused]").map
      (fun pts => { avg := npMean (pts.map (fun v => v.value)) }),
    temperature := (mdLookup monitoring_data "sensor.temp.value").map
      (fun pts => { avg := npMean (pts.map (fun v => v.value)) }),
    uptime := (mdLookup monitoring_data "system.uptime").map
      (fun pts =>
        { restarts := ((pts.map (fun v => v.value / 86400)).filter
            (fun u => decide (u < 1))).length }) }

/-- Embedding of `_calculate_health_score`: start at 100, subtract the static
two-tier penalties per metric family, subtract 10 per critical and 5 per high
anomaly, subtract 15 on frequent restarts, and clamp with
`max(0.0, min(100.0, score))`. -/
def calculate_health_score (health_metrics : HealthMetrics) (anomalies : List Anomaly) : ℚ :=
  let score : ℚ := 100
  let score := match health_metrics.cpu with
    | some cpu =>
        if cpu.avg > thresholds "cpu_critical" then score - 30
        else if cpu.avg > thresholds "cpu_warning" then score - 15
        else score
    | none => score
  let score := match health_metrics.memory with
    | some memory =>
        if memory.avg > thresholds "memory_critical" then score - 25
        else if memory.avg > thresholds "memory_warning" then score - 12
        else score
    | none => score
  let score := match health_metrics.disk with
    | some disk =>
        if disk.avg > thresholds "disk_critical" then score - 20
        else if disk.avg > thresholds "disk_warning" then score - 10
        else score
    | none => score
  let score := match health_metrics.temperature with
    | some temperature =>
        if temperature.avg > thresholds "temperature_critical" then score - 25
        else if temperature.avg > thresholds "temperature_warning" then score - 10
        else score
    | none => score
  let critical_anomalies := anomalies.filter (fun a => a.severity == "critical")
  let high_anomalies := anomalies.filter (fun a => a.severity == "high")
  let score := score - (critical_anomalies.length : ℚ) * 10
  let score := score - (high_anomalies.length : ℚ) * 5
  let score := match health_metrics.uptime with
    | some uptime => if uptime.restarts > 5 then score - 15 else score
    | none => score
  max 0 (min 100 score)

/-- Embedding of `_determine_risk_level`. -/
def determine_risk_level (health_score : ℚ) (anomalies : List Anomaly) : String :=
  let critical_anomalies := anomalies.filter (fun a => a.severity == "critical")
  if health_score < 30 ∨ critical_anomalies.length > 0 then "critical"
  else if health_score < 50 then "high"
  else if health_score < 70 then "medium"
  else "low"

/-- Descending comparator on dates: the embedding of the Django queryset
`order_by(neg completed_date)`. -/
def intGE (a b : Int) : Bool := decide (b ≤ a)

/-- Embedding of Python `int()` applied to a rational: truncation toward
zero. -/
def pyInt (q : ℚ) : Int := if q < 0 then -⌊-q⌋ else ⌊q⌋

/-- A Python date or datetime value carrying its day number.
`Intervention.completed_date` is a `DateTimeField`, so `last_intervention`
and `predicted_date` in `_predict_failure` are `datetime.datetime` values,
while `max_future_date` is built from `timezone.now().date()` and is a
`datetime.date`. -/
inductive PyDate where
  | datetime (day : Int)
  | date (day : Int)
deriving DecidableEq, Repr

/-- Embedding of Python `>` on date/datetime values: comparing like kinds is
an ordinary day comparison, but an ordering comparison between a
`datetime.datetime` and a `datetime.date` raises `TypeError`. -/
def pyDateGt : PyDate → PyDate → Except String Bool
  | PyDate.datetime a, PyDate.datetime b => Except.ok (decide (a > b))
  | PyDate.date a, PyDate.date b => Except.ok (decide (a > b))
  | _, _ => Except.error "TypeError: cannot compare datetime.datetime to datetime.date"

/-- Tail of `_predict_failure` after the database query: takes the (at most
10) most recent completed-intervention dates, most recent first.  Returns
`none` on fewer than 3 events; otherwise it computes the most recent event
date plus the mean consecutive interval scaled by the health factor,
truncated with `int()` — but the final guard
`predicted_date > max_future_date` compares a `datetime.datetime` with a
`datetime.date`, so it raises `TypeError`, which the function's
`except Exception` converts to `None`: once 3 events exist, the result is
always `None`. -/
def predict_failure_from_past (monitoring_data : MonitoringData) (past : List Int)
    (today : Int) : Option Int :=
  match past with
  | [] => none
  | last_intervention :: _ =>
    if past.length < 3 then none
    else
      let intervention_intervals : List Int := List.zipWith (fun a b => a - b) past past.tail
      if intervention_intervals.isEmpty then none
      else
        let avg_interval : ℚ := npMean (intervention_intervals.map (fun i => (i : ℚ)))
        let health_factor : ℚ := 1
        let health_factor := match mdLookup monitoring_data "system.cpu.util" with
          | some cpu_data =>
              if npMean (cpu_data.map (fun v => v.value)) > thresholds "cpu_warning" then
                health_factor * (4 / 5)
              else health_factor
          | none => health_factor
        let health_factor := match mdLookup monitoring_data "vm.memory.util" with
          | some memory_data =>
              if npMean (memory_data.map (fun v => v.value)) > thresholds "memory_warning" then
                health_factor * (4 / 5)
              else health_factor
          | none => health_factor
        let adjusted_interval := avg_interval * health_factor
        let predicted_date := last_intervention + pyInt adjusted_interval
        let max_future_date := today + 365
        match pyDateGt (PyDate.datetime predicted_date) (PyDate.date max_future_date) with
        | Except.error _ => none
        | Except.ok b => if b then none else some predicted_date

/-- Embedding of `_predict_failure`: `completed_dates` are the
`completed_date` day numbers of the equipment's completed interventions (the
database query sorts them descending and keeps at most 10). -/
def predict_failure (monitoring_data : MonitoringData) (completed_dates : List Int)
    (today : Int) : Option Int :=
  predict_failure_from_past monitoring_data ((pySort intGE completed_dates).take 10) today

/-- The fields of the `Equipment` model consulted by
`analyze_equipment_health` and `_send_maintenance_alert`.  `zabbix_hostid` is
`none` for a null or empty (falsy) host id. -/
structure Equipment where
  id : Nat
  name : String
  asset_tag : String
  monitoring_enabled : Bool
  zabbix_hostid : Option String
deriving DecidableEq, Repr

/-- The analysis result dict restricted to the claimed fields
(`maintenance_recommendations`, `trends` and the echoed `health_metrics` are
string/derived payload no claim touches). -/
structure AnalysisResult where
  health_score : ℚ
  risk_level : String
  predicted_failure_date : Option Int
  anomalies : List Anomaly
deriving DecidableEq, Repr

/-- Embedding of `_create_no_data_response` (recommendation strings elided). -/
def create_no_data_response : AnalysisResult :=
  { health_score := 50, risk_level := "unknown", predicted_failure_date := none,
    anomalies := [] }

/-- The early return of `analyze_equipment_health` when monitoring is
disabled or no Zabbix host is bound. -/
def monitoring_disabled_response : AnalysisResult :=
  { health_score := 50, risk_level := "unknown", predicted_failure_date := none,
    anomalies := [] }

/-- Embedding of the pure pipeline of `analyze_equipment_health`: the Zabbix
fetch (`monitoring_data`), the intervention history (`completed_dates`), the
current date and the anomaly classifier are explicit inputs. -/
def analyze_equipment_health (clf : List ℚ → List Bool) (completed_dates : List Int)
    (today : Int) (equipment : Equipment) (monitoring_data : MonitoringData) :
    AnalysisResult :=
  if !equipment.monitoring_enabled || equipment.zabbix_hostid.isNone then
    monitoring_disabled_response
  else if monitoring_data.isEmpty then
    create_no_data_response
  else
    let health_metrics := calculate_health_metrics monitoring_data
    let anomalies := detect_anomalies clf monitoring_data
    let failure_prediction := predict_failure monitoring_data completed_dates today
    let health_score := calculate_health_score health_metrics anomalies
    let risk_level := determine_risk_level health_score anomalies
    { health_score := health_score, risk_level := risk_level,
      predicted_failure_date := failure_prediction, anomalies := anomalies }

/-- One `SystemNotification` row as created by `_send_maintenance_alert`
(title / message / action strings elided; `day` is the calendar day the row
is created on, standing for the auto-set creation timestamp). -/
structure SystemNotification where
  notification_type : String
  equipment_id : Nat
  health_score : ℚ
  risk_level : String
  day : Int
deriving DecidableEq, Repr

/-- Embedding of `_send_maintenance_alert`: unconditionally appends one
notification row for the equipment to the notification store. -/
def send_maintenance_alert (equipment : Equipment) (analysis_result : AnalysisResult)
    (day : Int) (log : List SystemNotification) : List SystemNotification :=
  log ++ [{ notification_type := "maintenance_due", equipment_id := equipment.id,
            health_score := analysis_result.health_score,
            risk_level := analysis_result.risk_level, day := day }]

/-- The alert-dispatch step at the end of `analyze_equipment_health`
(lines 100-108): when the computed risk level is in `['high', 'critical']`,
`_send_maintenance_alert` is invoked; otherwise nothing is emitted.  The
decision reads nothing but the current result — not the store, the day, or
any record of past emissions. -/
def alert_dispatch_step (equipment : Equipment) (analysis_result : AnalysisResult)
    (day : Int) (log : List SystemNotification) : List SystemNotification :=
  if analysis_result.risk_level == "high" || analysis_result.risk_level == "critical" then
    send_maintenance_alert equipment analysis_result day log
  else log

/-- The surface of the Zabbix API used by `ZabbixService.get_history_data`:
`itemGet hostid metric` resolves item ids, `historyGet itemid t1 t2` fetches
samples.  `Except.error` models a raised exception (transport or backend
failure). -/
structure ZabbixApi where
  itemGet : String → String → Except String (List String)
  historyGet : String → Int → Int → Except String (List HistPoint)

/-- Embedding of `ZabbixService.get_history_data`: the whole body sits in a
`try` whose `except` returns `[]`, so every backend failure is swallowed into
an empty list; a missing api connection, no matching item, and an empty
history likewise all yield `[]`. -/
def get_history_data (api : Option ZabbixApi) (hostid metric : String)
    (start_time end_time : Int) : List HistPoint :=
  match api with
  | none => []
  | some a =>
    match a.itemGet hostid metric with
    | Except.error _ => []
    | Except.ok items =>
      match items with
      | [] => []
      | itemid :: _ =>
        match a.historyGet itemid start_time end_time with
        | Except.error _ => []
        | Except.ok history => history

/-!  Claim-side definitions.  These follow the wording of the specification
(§4.5) rather than the source, and exist to be compared with the source-side
`predict_failure`. -/

/-- Claim-side: the 10 most recent completed maintenance events, most recent
first. -/
def spec_recent_events (completed_dates : List Int) : List Int :=
  (pySort intGE completed_dates).take 10

/-- Claim-side: the mean interval in days between consecutive historical
events (most-recent-first list, consecutive deltas). -/
def spec_mean_interval_days (completed_dates : List Int) : ℚ :=
  let past := spec_recent_events completed_dates
  npMean ((List.zipWith (fun a b => a - b) past past.tail : List Int).map (fun i => (i : ℚ)))

/-- Claim-side: the multiplicative health factor, starting at 1.0 and reduced
by 0.8 for each of cpu and memory whose current average exceeds its warning
threshold. -/
def spec_health_factor (monitoring_data : MonitoringData) : ℚ :=
  (match mdLookup monitoring_data "system.cpu.util" with
    | some cpu_data =>
        if npMean (cpu_data.map (fun v => v.value)) > thresholds "cpu_warning" then (4 / 5 : ℚ)
        else 1
    | none => 1) *
  (match mdLookup monitoring_data "vm.memory.util" with
    | some memory_data =>
        if npMean (memory_data.map (fun v => v.value)) > thresholds "memory_warning" then (4 / 5 : ℚ)
        else 1
    | none => 1)

/-- Claim-side: the most recent completed maintenance event date. -/
def spec_most_recent_event (completed_dates : List Int) : Option Int :=
  (spec_recent_events completed_dates).head?

/-!  Helper decompositions of `calculate_health_score` used by the proofs. -/

/-- The value of the `score` variable in `_calculate_health_score` after the
four per-metric penalty blocks and before the anomaly deductions. -/
def score_metric_part (health_metrics : HealthMetrics) : ℚ :=
  let score : ℚ := 100
  let score := match health_metrics.cpu with
    | some cpu =>
        if cpu.avg > thresholds "cpu_critical" then score - 30
        else if cpu.avg > thresholds "cpu_warning" then score - 15
        else score
    | none => score
  let score := match health_metrics.memory with
    | some memory =>
        if memory.avg > thresholds "memory_critical" then score - 25
        else if memory.avg > thresholds "memory_warning" then score - 12
        else score
    | none => score
  let score := match health_metrics.disk with
    | some disk =>
        if disk.avg > thresholds "disk_critical" then score - 20
        else if disk.avg > thresholds "disk_warning" then score - 10
        else score
    | none => score
  match health_metrics.temperature with
    | some temperature =>
        if temperature.avg > thresholds "temperature_critical" then score - 25
        else if temperature.avg > thresholds "temperature_warning" then score - 10
        else score
    | none => score

/-- The deduction applied by the uptime block of `_calculate_health_score`. -/
def score_uptime_penalty (health_metrics : HealthMetrics) : ℚ :=
  match health_metrics.uptime with
  | some uptime => if uptime.restarts > 5 then 15 else 0
  | none => 0

/-!  Concrete inputs used by counterexamples and witnesses. -/

/-- A monitored piece of equipment with a bound Zabbix host. -/
def w_equipment : Equipment :=
  { id := 1, name := "srv", asset_tag := "A1", monitoring_enabled := true,
    zabbix_hostid := some "10101" }

/-- Monitoring data with a cpu average of 92 and a memory average of 96: the
health score becomes 100 - 30 - 25 = 45, so the risk level is high (the
single-sample streams are below the anomaly detector's minimum). -/
def w_high_risk_data : MonitoringData :=
  [("system.cpu.util", [⟨1, 92⟩]), ("vm.memory.util", [⟨1, 96⟩])]

/-- A classifier that never flags a sample. -/
def clf_none : List ℚ → List Bool := fun vs => vs.map (fun _ => false)

/-- The analysis result on `w_high_risk_data`. -/
def w_high_risk_result : AnalysisResult :=
  analyze_equipment_health clf_none [] 0 w_equipment w_high_risk_data

/-- A 10-sample cpu stream whose values 99 and 50 will be flagged: value 99 is
a critical anomaly, value 50 a medium one. -/
def w_cpu_stream : List HistPoint :=
  [⟨1, 99⟩, ⟨2, 50⟩, ⟨3, 10⟩, ⟨4, 11⟩, ⟨5, 12⟩, ⟨6, 13⟩, ⟨7, 14⟩, ⟨8, 15⟩, ⟨9, 16⟩, ⟨10, 17⟩]

/-- A classifier flagging exactly the samples with value 99 or 50. -/
def clf_outliers : List ℚ → List Bool := fun vs => vs.map (fun v => v == 99 || v == 50)

/-- Monitoring data holding just `w_cpu_stream`. -/
def w_cpu_data : MonitoringData := [("system.cpu.util", w_cpu_stream)]

/-- A 9-sample stream (below the detector's minimum of 10). -/
def w_nine_stream : List HistPoint :=
  [⟨1, 10⟩, ⟨2, 11⟩, ⟨3, 12⟩, ⟨4, 13⟩, ⟨5, 14⟩, ⟨6, 15⟩, ⟨7, 16⟩, ⟨8, 17⟩, ⟨9, 99⟩]

/-- A classifier that flags every sample. -/
def clf_all : List ℚ → List Bool := fun vs => vs.map (fun _ => true)

/-- One critical anomaly, used to witness the score monotonicity. -/
def w_critical_anomaly : Anomaly :=
  { metric := "system.cpu.util", timestamp := 1, value := 99, severity := "critical",
    description := "Unusually high CPU utilization" }

/-- A Zabbix backend whose item lookup raises (transport failure). -/
def failing_api : ZabbixApi :=
  { itemGet := fun _ _ => Except.error "connection refused",
    historyGet := fun _ _ _ => Except.ok [] }

/-- A healthy Zabbix backend that genuinely has no samples in the range. -/
def empty_history_api : ZabbixApi :=
  { itemGet := fun _ _ => Except.ok ["10001"],
    historyGet := fun _ _ _ => Except.ok [] }

/-- A maintenance history of exactly 10 completed events. -/
def w_ten_events : List Int := [100, 91, 82, 73, 64, 55, 46, 37, 28, 19]

/-- The same history with one older eleventh event appended. -/
def w_eleven_events : List Int := [100, 91, 82, 73, 64, 55, 46, 37, 28, 19, 1]

/-!  General helper lemmas. -/

/-- Inserting one element grows the length by one. -/
theorem pyInsert_length {α : Type} (le : α → α → Bool) (a : α) (l : List α) :
    (pyInsert le a l).length = l.length + 1 := by
  induction l with
  | nil => rfl
  | cons b bs ih =>
    unfold pyInsert
    by_cases h : le a b = true
    · rw [if_pos h]; rfl
    · rw [if_neg h]; simp [ih]

/-- Sorting preserves the length. -/
theorem pySort_length {α : Type} (le : α → α → Bool) (l : List α) :
    (pySort le l).length = l.length := by
  induction l with
  | nil => rfl
  | cons a as ih => unfold pySort; rw [pyInsert_length, ih]; rfl

/-- Decomposition of `calculate_health_score` into the metric part, the two
anomaly deductions and the uptime penalty, under the final clamp. -/
theorem calculate_health_score_eq (m : HealthMetrics) (A : List Anomaly) :
    calculate_health_score m A =
      max 0 (min 100 (score_metric_part m -
        ((A.filter (fun a => a.severity == "critical")).length : ℚ) * 10 -
        ((A.filter (fun a => a.severity == "high")).length : ℚ) * 5 -
        score_uptime_penalty m)) := by
  rcases hu : m.uptime with _ | u
  · simp only [calculate_health_score, score_metric_part, score_uptime_penalty, hu]
    apply congrArg
    apply congrArg
    ring
  · by_cases hr : u.restarts > 5
    · simp only [calculate_health_score, score_metric_part, score_uptime_penalty, hu, if_pos hr]
    · simp only [calculate_health_score, score_metric_part, score_uptime_penalty, hu, if_neg hr]
      apply congrArg
      apply congrArg
      ring

/-- A positive count of critical-severity anomalies is the same as the
existence test used in the claim. -/
theorem critical_count_pos_iff (A : List Anomaly) :
    0 < (A.filter (fun a => a.severity == "critical")).length ↔
      A.any (fun a => a.severity == "critical") = true := by
  rw [List.length_pos, ne_eq, List.filter_eq_nil_iff, List.any_eq_true]
  push_neg
  rfl

/-- C5: for every health score and anomaly list, the risk level follows the
claimed priority order: any critical anomaly or a score below 30 gives
`critical`; otherwise below 50 gives `high`; otherwise below 70 gives
`medium`; otherwise `low`. -/
theorem determine_risk_level_priority (s : ℚ) (A : List Anomaly) :
    determine_risk_level s A =
      if (A.any (fun a => a.severity == "critical") = true) ∨ s < 30 then "critical"
      else if s < 50 then "high"
      else if s < 70 then "medium"
      else "low" := by
  simp only [determine_risk_level]
  by_cases hc : A.any (fun a => a.severity == "critical") = true
  · rw [if_pos (Or.inr (critical_count_pos_iff A |>.mpr hc)), if_pos (Or.inl hc)]
  · by_cases h30 : s < 30
    · rw [if_pos (Or.inl h30), if_pos (Or.inr h30)]
    · have hl : ¬(s < 30 ∨ 0 < (A.filter (fun a => a.severity == "critical")).length) := by
        rintro (h | h)
        · exact h30 h
        · exact hc (critical_count_pos_iff A |>.mp h)
      have hr : ¬((A.any (fun a => a.severity == "critical") = true) ∨ s < 30) := by
        rintro (h | h)
        · exact hc h
        · exact h30 h
      rw [if_neg hl, if_neg hr]

/-- C2 counterexample: the health scorer applied to an empty summaries map
and an empty anomaly list returns 100 (not 50), and the risk derivation on
that result returns `low` (not `unknown`). -/
theorem score_empty_counterexample :
    calculate_health_score empty_health_metrics [] = 100 ∧
    determine_risk_level (calculate_health_score empty_health_metrics []) [] = "low" ∧
    calculate_health_score empty_health_metrics [] ≠ 50 ∧
    determine_risk_level (calculate_health_score empty_health_metrics []) [] ≠ "unknown" := by
  have h : calculate_health_score empty_health_metrics [] = 100 := by
    norm_num [calculate_health_score, empty_health_metrics]
  refine ⟨h, ?_, ?_, ?_⟩ <;> rw [h]
  · norm_num [determine_risk_level]
  · norm_num
  · norm_num +decide [determine_risk_level]

/-- C2 (amended): the 50 / `unknown` neutral result is produced by the
analyzer's empty-monitoring-data short-circuit (`_create_no_data_response`)
before the scorer runs; the scorer itself on empty inputs returns 100 with
risk `low`. -/
theorem no_data_neutral_path (clf : List ℚ → List Bool) (completed_dates : List Int)
    (today : Int) (equipment : Equipment)
    (h1 : equipment.monitoring_enabled = true)
    (h2 : equipment.zabbix_hostid.isNone = false) :
    analyze_equipment_health clf completed_dates today equipment [] = create_no_data_response
    ∧ create_no_data_response.health_score = 50
    ∧ create_no_data_response.risk_level = "unknown"
    ∧ calculate_health_score empty_health_metrics [] = 100
    ∧ determine_risk_level (calculate_health_score empty_health_metrics []) [] = "low" := by
  refine ⟨?_, rfl, rfl, ?_, ?_⟩
  · simp [analyze_equipment_health, h1, h2]
  · norm_num [calculate_health_score, empty_health_metrics]
  · norm_num [determine_risk_level, calculate_health_score, empty_health_metrics]

/-- C2 witness: the amended statement at a concrete monitored equipment. -/
theorem no_data_neutral_path_witness :
    analyze_equipment_health clf_none [] 0 w_equipment [] = create_no_data_response :=
  (no_data_neutral_path clf_none [] 0 w_equipment rfl rfl).1

/-- C4 counterexample: on a backend whose item lookup raises, the history
fetch returns the empty list — the very same value it returns when the
backend genuinely has no samples — instead of failing with an error. -/
theorem get_history_failure_counterexample :
    get_history_data (some failing_api) "10101" "system.cpu.util" 0 100 =
      get_history_data (some empty_history_api) "10101" "system.cpu.util" 0 100 ∧
    get_history_data (some failing_api) "10101" "system.cpu.util" 0 100 = [] := by
  exact ⟨rfl, rfl⟩

/-- C4 (amended): `get_history_data` swallows every backend failure into an
empty list (the `except` branch), so transport failure and genuine absence of
data are indistinguishable to the caller, which proceeds with partial
results; when all calls succeed the history list is returned as is. -/
theorem get_history_data_amended (a : ZabbixApi) (hostid metric : String) (t1 t2 : Int) :
    ((∃ e, a.itemGet hostid metric = Except.error e) →
      get_history_data (some a) hostid metric t1 t2 = []) ∧
    (∀ itemid rest e2, a.itemGet hostid metric = Except.ok (itemid :: rest) →
      a.historyGet itemid t1 t2 = Except.error e2 →
      get_history_data (some a) hostid metric t1 t2 = []) ∧
    (∀ itemid rest history, a.itemGet hostid metric = Except.ok (itemid :: rest) →
      a.historyGet itemid t1 t2 = Except.ok history →
      get_history_data (some a) hostid metric t1 t2 = history) := by
  refine ⟨?_, ?_, ?_⟩
  · rintro ⟨e, he⟩
    simp only [get_history_data, he]
  · intro itemid rest e2 hi hh
    simp only [get_history_data, hi, hh]
  · intro itemid rest history hi hh
    simp only [get_history_data, hi, hh]

/-- C4 witness: the amended statement at the concrete failing backend. -/
theorem get_history_data_amended_witness :
    get_history_data (some failing_api) "10101" "system.cpu.util" 0 100 = [] :=
  (get_history_data_amended failing_api "10101" "system.cpu.util" 0 100).1
    ⟨"connection refused", rfl⟩

/-- C1 counterexample: analyzing `w_high_risk_data` yields risk `high`, and
two alert-dispatch invocations on the same calendar day for the same asset
and the same risk level put two notifications in the store — more than the
single emission the claim allows for the (asset, risk level, day) bucket. -/
theorem alert_dedup_counterexample :
    w_high_risk_result.risk_level = "high" ∧
    ¬ ((alert_dispatch_step w_equipment w_high_risk_result 7
          (alert_dispatch_step w_equipment w_high_risk_result 7 [])).filter
        (fun n => n.equipment_id == 1 && n.risk_level == "high" && n.day == 7)).length ≤ 1 := by
  have hr : w_high_risk_result =
      { health_score := 45, risk_level := "high", predicted_failure_date := none,
        anomalies := [] } := by
    norm_num +decide [w_high_risk_result, analyze_equipment_health, clf_none, w_equipment,
      w_high_risk_data, calculate_health_metrics, detect_anomalies, predict_failure,
      predict_failure_from_past, pySort, pyInsert, intGE, mdLookup, npMean,
      calculate_health_score, determine_risk_level, thresholds, Function.comp]
  rw [hr]
  refine ⟨rfl, ?_⟩
  decide

/-- C1 (amended): the alert-dispatch path emits exactly one notification per
invocation whose risk level is high or critical, regardless of the store's
contents — no (asset, risk level, day) bucket is tracked and repeats are
never suppressed. -/
theorem alert_dispatch_emits_per_invocation (equipment : Equipment)
    (analysis_result : AnalysisResult) (day : Int) (log : List SystemNotification) :
    (alert_dispatch_step equipment analysis_result day log).length =
      log.length + (if analysis_result.risk_level = "high" ∨
        analysis_result.risk_level = "critical" then 1 else 0) := by
  by_cases h : analysis_result.risk_level = "high" ∨ analysis_result.risk_level = "critical"
  · have hb : (analysis_result.risk_level == "high" ||
        analysis_result.risk_level == "critical") = true := by
      rcases h with h | h <;> simp [h]
    simp [alert_dispatch_step, send_maintenance_alert, hb, h]
  · have hb : (analysis_result.risk_level == "high" ||
        analysis_result.risk_level == "critical") = false := by
      rcases not_or.mp h with ⟨h1, h2⟩
      simp [h1, h2]
    simp [alert_dispatch_step, hb, h]

/-- C6: for a fixed summary set, the health score never increases when
critical-severity anomalies are appended, and every returned score lies in
[0, 100]. -/
theorem health_score_monotone_and_clamped (m : HealthMetrics) (A extra : List Anomaly)
    (h : ∀ a ∈ extra, a.severity = "critical") :
    calculate_health_score m (A ++ extra) ≤ calculate_health_score m A ∧
    ∀ (m2 : HealthMetrics) (A2 : List Anomaly),
      0 ≤ calculate_health_score m2 A2 ∧ calculate_health_score m2 A2 ≤ 100 := by
  constructor
  · rw [calculate_health_score_eq, calculate_health_score_eq]
    have hc : (A ++ extra).filter (fun a => a.severity == "critical") =
        A.filter (fun a => a.severity == "critical") ++ extra := by
      rw [List.filter_append]
      congr 1
      refine List.filter_eq_self.mpr (fun a ha => ?_)
      rw [h a ha]
      decide
    have hh2 : (A ++ extra).filter (fun a => a.severity == "high") =
        A.filter (fun a => a.severity == "high") := by
      rw [List.filter_append]
      have hnil : extra.filter (fun a => a.severity == "high") = [] := by
        refine List.filter_eq_nil_iff.mpr (fun a ha => ?_)
        rw [h a ha]
        decide
      rw [hnil, List.append_nil]
    rw [hc, hh2]
    refine max_le_max le_rfl (min_le_min le_rfl ?_)
    rw [List.length_append]
    push_cast
    have hnn : (0 : ℚ) ≤ (extra.length : ℚ) * 10 := by positivity
    linarith
  · intro m2 A2
    rw [calculate_health_score_eq]
    exact ⟨le_max_left _ _, max_le (by norm_num) (min_le_left _ _)⟩

/-- C6 witness: appending one concrete critical anomaly to the empty anomaly
list does not raise the score. -/
theorem health_score_monotone_witness :
    calculate_health_score empty_health_metrics ([] ++ [w_critical_anomaly]) ≤
      calculate_health_score empty_health_metrics [] :=
  (health_score_monotone_and_clamped empty_health_metrics [] [w_critical_anomaly]
    (by decide)).1

/-- C3 (code bug): on a concrete cpu stream where the classifier flags the
value 99 (severity critical) and the value 50 (severity medium), the detector
returns the medium anomaly BEFORE the critical one: the sort key compares the
severity strings lexicographically descending, and as strings
"medium" > "high" > "critical", so the claimed (critical, high, medium)
descending order is violated. -/
theorem detect_anomalies_sort_bug :
    (detect_anomalies clf_outliers w_cpu_data).map (fun a => a.severity) =
      ["medium", "critical"] := by
  norm_num +decide [detect_anomalies, clf_outliers, w_cpu_data, w_cpu_stream, mdLookup,
    pySort, pyInsert, anomalyKeyGE, pyStrLt, charListLt, calculate_anomaly_severity,
    describe_anomaly, strHasSub, strSubAux, strMatchAt]

/-- C9: a stream with fewer than 10 samples contributes no anomalies (in
particular a lone short stream yields the empty list), and the returned list
never exceeds 20 entries. -/
theorem detect_anomalies_min_samples_and_cap (clf : List ℚ → List Bool) (name : String)
    (pts : List HistPoint) (rest : MonitoringData) (h : pts.length < 10) :
    detect_anomalies clf ((name, pts) :: rest) = detect_anomalies clf rest ∧
    detect_anomalies clf [(name, pts)] = [] ∧
    ∀ d : MonitoringData, (detect_anomalies clf d).length ≤ 20 := by
  have hskip : ∀ r : MonitoringData, detect_anomalies clf ((name, pts) :: r) =
      detect_anomalies clf r := by
    intro r
    simp only [detect_anomalies, List.flatMap_cons]
    rw [if_pos h, List.nil_append]
  refine ⟨hskip rest, ?_, ?_⟩
  · rw [hskip []]
    rfl
  · intro d
    simp only [detect_anomalies]
    exact List.length_take_le _ _

/-- C9 witness: a concrete 9-sample stream yields no anomalies even under a
classifier that flags every sample. -/
theorem detect_anomalies_min_samples_witness :
    detect_anomalies clf_all [("system.cpu.util", w_nine_stream)] = [] :=
  (detect_anomalies_min_samples_and_cap clf_all "system.cpu.util" w_nine_stream []
    (by decide)).2.1

/-- Helper: the failure predictor returns `None` on every input.  Fewer than
3 events hit the early return; with 3 or more events the guard
`predicted_date > max_future_date` compares a `datetime.datetime` with a
`datetime.date`, raising `TypeError`, which the surrounding
`except Exception` converts to `None`. -/
theorem predict_failure_eq_none (monitoring_data : MonitoringData)
    (completed_dates : List Int) (today : Int) :
    predict_failure monitoring_data completed_dates today = none := by
  rcases hp : (pySort intGE completed_dates).take 10 with _ | ⟨a, as⟩ <;>
    simp only [predict_failure, predict_failure_from_past, hp]
  split_ifs <;> rfl

/-- C7 (code bug): the `fewer than 3 events → None` half is implemented, but
the 365-day rejection path never decides anything — `predicted_date` is a
datetime (built from the `DateTimeField` `completed_date`) while
`max_future_date` is a date, so the comparison raises `TypeError` and the
`except` turns every run with 3 or more events into `None`.  At the concrete
history (11, 4, 0) the intended prediction is day 16, well within 365 days
of day 0, yet the predictor returns `None`. -/
theorem predict_failure_always_none_bug :
    (∀ (monitoring_data : MonitoringData) (completed_dates : List Int) (today : Int),
      predict_failure monitoring_data completed_dates today = none) ∧
    (11 : Int) + pyInt (spec_mean_interval_days [11, 4, 0] * spec_health_factor []) = 16 ∧
    ((16 : Int) ≤ 0 + 365) := by
  refine ⟨predict_failure_eq_none, ?_, by norm_num⟩
  norm_num [spec_mean_interval_days, spec_recent_events, spec_health_factor,
    pySort, pyInsert, intGE, npMean, mdLookup, pyInt]

/-- C10: the prediction depends only on the 10 most recent completed
maintenance events — two histories agreeing on those (with identical
monitoring data) get the same predicted failure date. -/
theorem predict_failure_depends_on_recent (monitoring_data : MonitoringData)
    (cd1 cd2 : List Int) (today : Int)
    (h : spec_recent_events cd1 = spec_recent_events cd2) :
    predict_failure monitoring_data cd1 today =
      predict_failure monitoring_data cd2 today := by
  unfold spec_recent_events at h
  unfold predict_failure
  rw [h]

/-- C10 witness: appending an older eleventh event leaves the prediction
unchanged. -/
theorem predict_failure_depends_on_recent_witness :
    predict_failure [] w_ten_events 0 = predict_failure [] w_eleven_events 0 :=
  predict_failure_depends_on_recent [] w_ten_events w_eleven_events 0 (by decide)

/-- C8 (code bug): with completed events on days 11, 4 and 0 and no
monitoring data, the claimed formula gives most-recent (day 11) plus
mean interval 5.5 times health factor 1, i.e. day 16.5 (day 16 after the
code's `int()` truncation) — but the predictor returns no date at all: the
datetime-vs-date `TypeError` in the 365-day guard is swallowed into `None`,
so no returned date exists to satisfy the claimed equation. -/
theorem predict_failure_formula_unrealized :
    predict_failure [] [11, 4, 0] 0 = none ∧
    spec_most_recent_event [11, 4, 0] = some 11 ∧
    spec_mean_interval_days [11, 4, 0] * spec_health_factor [] = 11 / 2 ∧
    ∀ d : Int, predict_failure [] [11, 4, 0] 0 ≠ some d := by
  have hn : predict_failure [] [11, 4, 0] 0 = none := by
    norm_num [predict_failure, predict_failure_from_past, pySort, pyInsert, intGE,
      npMean, mdLookup, pyInt, pyDateGt]
  refine ⟨hn, rfl, ?_, ?_⟩
  · norm_num [spec_mean_interval_days, spec_recent_events, spec_health_factor,
      pySort, pyInsert, intGE, npMean, mdLookup]
  · intro d hd
    rw [hn] at hd
    cases hd
